import Mathlib

/-!
Verification of the ambassador TLS-secret resolution core
(`src/ambassador/ambassador/utils.py`) against its specification.

The embedding models:
- `SavedSecret` with its `__bool__`;
- `RichStatus` with its attribute injection, `__getattr__`, `__bool__`,
  `__contains__` and `__str__`;
- `KubeSecretReader.__call__`, with the Kubernetes fetch outcome abstracted
  as an input (`KubeFetch`), since the cluster API is an external collaborator;
- `SplitConfigChecker.secret_reader`, with the file-read/YAML-parse outcome
  abstracted as an input (`SnapRead`), since the YAML parser is an external
  collaborator;
- `binascii.a2b_base64` (the legacy CPython algorithm: non-alphabet characters
  are skipped, a pad terminates decoding when enough of a quad has been seen,
  leftover bits at end of input raise `binascii.Error`); a failing decode is
  an exception, modelled as `Except.error`;
- the UTF-8 strictness of `bytes.decode("utf-8")` used before each file write;
- the filesystem as a list of writes (newest first), reads returning the
  newest write for a path.

Python dictionaries are modelled as association lists (first binding wins);
dict truthiness is non-emptiness.  Byte strings are `List Nat`.
-/

namespace Ambassador

abbrev Bytes := List Nat
abbrev DataMap := List (String × String)

/-- Python `d.get(k, None)` on a dict modelled as an association list. -/
def dget (d : DataMap) (k : String) : Option String :=
  match d with
  | [] => none
  | (k2, v) :: rest => if k2 = k then some v else dget rest k

/-- Python `d[k] = v`: replace an existing binding in place, else append. -/
def dset (d : DataMap) (k v : String) : DataMap :=
  match d with
  | [] => [(k, v)]
  | (k2, v2) :: rest => if k2 = k then (k, v) :: rest else (k2, v2) :: dset rest k v

/-- Truthiness of an optional Python string (`None` and `""` are falsy). -/
def pyStrOptTruthy : Option String → Bool
  | none => false
  | some s => s ≠ ""

/-- Truthiness of an optional Python dict (`None` and `{}` are falsy). -/
def pyDictOptTruthy : Option DataMap → Bool
  | none => false
  | some d => !d.isEmpty

/-- Python `str(x)` for an optional string (`str(None) = "None"`). -/
def optStr : Option String → String
  | none => "None"
  | some s => s

/-- The filesystem: a list of (path, bytes) writes, newest first. -/
abbrev FS := List (String × Bytes)

def fsWrite (fs : FS) (p : String) (b : Bytes) : FS := (p, b) :: fs

/-- Reading a file back: the newest write to that path, if any. -/
def fsRead (fs : FS) (p : String) : Option Bytes :=
  match fs with
  | [] => none
  | (q, b) :: rest => if q = p then some b else fsRead rest p

/-- `os.path.join` for the non-absolute second components used here. -/
def pjoin (a b : String) : String := a ++ "/" ++ b

/-! ### base64 decoding (`binascii.a2b_base64`) -/

/-- Index of a character in the base64 alphabet, if any. -/
def b64Index (c : Char) : Option Nat :=
  if 'A' ≤ c ∧ c ≤ 'Z' then some (c.toNat - 65)
  else if 'a' ≤ c ∧ c ≤ 'z' then some (c.toNat - 97 + 26)
  else if '0' ≤ c ∧ c ≤ '9' then some (c.toNat - 48 + 52)
  else if c = '+' then some 62
  else if c = '/' then some 63
  else none

/-- The next character that is in the alphabet or is a pad, as in
`binascii_find_valid`. -/
def nextRelevant : List Char → Option Char
  | [] => none
  | c :: cs => if (b64Index c).isSome || c = '=' then some c else nextRelevant cs

/-- The quad automaton of the legacy CPython `a2b_base64`:
`qp` is the position in the current quad, `left` the value of the leftover
bits, `acc` the output bytes in reverse.  Leftover bits at the end of input
mean invalid padding (`none`, an exception in Python). -/
def a2bLoop : List Char → Nat → Nat → Bytes → Option Bytes
  | [], qp, _, acc => if qp = 0 then some acc.reverse else none
  | c :: cs, qp, left, acc =>
    match b64Index c with
    | some v =>
      if qp = 0 then a2bLoop cs 1 v acc
      else if qp = 1 then a2bLoop cs 2 ((left * 64 + v) % 16) (((left * 64 + v) / 16) :: acc)
      else if qp = 2 then a2bLoop cs 3 ((left * 64 + v) % 4) (((left * 64 + v) / 4) :: acc)
      else a2bLoop cs 0 0 ((left * 64 + v) :: acc)
    | none =>
      if c = '=' then
        if qp = 2 then
          if nextRelevant cs = some '=' then some acc.reverse else a2bLoop cs qp left acc
        else if qp = 3 then some acc.reverse
        else a2bLoop cs qp left acc
      else a2bLoop cs qp left acc

/-- `binascii.a2b_base64`: `none` models the raised `binascii.Error`. -/
def a2b_base64 (s : String) : Option Bytes := a2bLoop s.data 0 0 []

/-! ### UTF-8 validity (`bytes.decode("utf-8")` strictness) -/

/-- Continuation-byte range check for a 3-byte sequence lead. -/
def cont3lo (b : Nat) : Nat := if b = 0xE0 then 0xA0 else 0x80
def cont3hi (b : Nat) : Nat := if b = 0xED then 0x9F else 0xBF
def cont4lo (b : Nat) : Nat := if b = 0xF0 then 0x90 else 0x80
def cont4hi (b : Nat) : Nat := if b = 0xF4 then 0x8F else 0xBF

/-- Strict UTF-8 validity of a byte sequence, as checked by Python's
`bytes.decode("utf-8")` (rejects overlong forms and surrogates). -/
def utf8Valid : List Nat → Bool
  | [] => true
  | b :: bs =>
    if b < 0x80 then utf8Valid bs
    else if b < 0xC2 then false
    else if b ≤ 0xDF then
      match bs with
      | c :: bs2 => decide (0x80 ≤ c) && decide (c ≤ 0xBF) && utf8Valid bs2
      | [] => false
    else if b ≤ 0xEF then
      match bs with
      | c :: d :: bs2 =>
        decide (cont3lo b ≤ c) && decide (c ≤ cont3hi b) &&
        decide (0x80 ≤ d) && decide (d ≤ 0xBF) && utf8Valid bs2
      | _ => false
    else if b ≤ 0xF4 then
      match bs with
      | c :: d :: e :: bs2 =>
        decide (cont4lo b ≤ c) && decide (c ≤ cont4hi b) &&
        decide (0x80 ≤ d) && decide (d ≤ 0xBF) &&
        decide (0x80 ≤ e) && decide (e ≤ 0xBF) && utf8Valid bs2
      | _ => false
    else false

/-! ### SavedSecret -/

structure SavedSecret where
  secret_name : String
  nspace : String          -- `namespace` is a Lean keyword
  cert_path : Option String
  key_path : Option String
  cert_data : Option DataMap
deriving DecidableEq

/-- `SavedSecret.__bool__`:
`bool(bool(self.cert_path) and (self.cert_data is not None))`. -/
def SavedSecret.toBool (s : SavedSecret) : Bool :=
  pyStrOptTruthy s.cert_path && s.cert_data.isSome

/-- `SavedSecret.name`. -/
def SavedSecret.showName (s : SavedSecret) : String :=
  "secret " ++ s.secret_name ++ " in namespace " ++ s.nspace

/-! ### The shared decode/persist tail of both readers -/

/-- Exceptions that can escape the resolution code. -/
inductive PyErr where
  | binasciiError        -- binascii.Error from a2b_base64
  | unicodeDecodeError   -- UnicodeDecodeError from bytes.decode("utf-8")
deriving DecidableEq

/-- `field = data.get(k, None); if field: field = binascii.a2b_base64(field)`:
an absent or empty field stays falsy (`none` here); a present nonempty field
is decoded, raising on malformed base64. -/
def decodeField (v : Option String) : Except PyErr (Option Bytes) :=
  match v with
  | none => Except.ok none
  | some s =>
    if s = "" then Except.ok none
    else
      match a2b_base64 s with
      | some b => Except.ok (some b)
      | none => Except.error PyErr.binasciiError

/-- The write block shared by both readers: if the decoded cert is truthy,
write `<dir>/tls.crt` (decoding bytes to UTF-8 text raises on invalid bytes);
if additionally the decoded key is truthy, write `<dir>/tls.key`.
Returns (cert_path, key_path, filesystem). -/
def writeCertKey (cert key : Option Bytes) (dir : String) (fs : FS) :
    Except PyErr (Option String × Option String × FS) :=
  match cert with
  | none => Except.ok (none, none, fs)
  | some cb =>
    if cb.isEmpty then Except.ok (none, none, fs)
    else if utf8Valid cb then
      let cp := pjoin dir "tls.crt"
      let fs1 := fsWrite fs cp cb
      match key with
      | none => Except.ok (some cp, none, fs1)
      | some kb =>
        if kb.isEmpty then Except.ok (some cp, none, fs1)
        else if utf8Valid kb then
          let kp := pjoin dir "tls.key"
          Except.ok (some cp, some kp, fsWrite fs1 kp kb)
        else Except.error PyErr.unicodeDecodeError
    else Except.error PyErr.unicodeDecodeError

/-- Result of a resolution that returned normally. -/
structure ReadOut where
  secret : SavedSecret
  fs : FS
  log : List String
deriving DecidableEq

/-! ### KubeSecretReader -/

/-- Outcome of the Kubernetes fetch, an external collaborator:
no API handle, not found, another API exception, or a fetched `V1Secret`
(represented by its `data` mapping). -/
inductive KubeFetch where
  | noHandle
  | notFound
  | apiError (emsg : String)
  | secret (data : DataMap)
deriving DecidableEq

def msgNotFound (secret_name : String) : String :=
  "secret " ++ secret_name ++ " not found"

def msgCouldNotRead (ns secret_name emsg : String) : String :=
  "secret " ++ ns ++ "/" ++ secret_name ++ " could not be read: " ++ emsg

/-- `<secret_root>/<namespace>/secrets/<secret_name>`. -/
def kubeSecretDir (secret_root ns secret_name : String) : String :=
  pjoin (pjoin (pjoin secret_root ns) "secrets") secret_name

/-- `KubeSecretReader.__call__`.  The fetch outcome is an input.  When the
fetched secret's `data` mapping is empty, Python skips extraction and stores
the (truthy, non-`None`) `V1Secret` object itself in `cert_data`; we represent
that object by its data mapping, which preserves `is not None`-ness. -/
def kubeSecretReader (fetch : KubeFetch) (secret_name ns secret_root : String)
    (fs : FS) : Except PyErr ReadOut :=
  match fetch with
  | KubeFetch.noHandle =>
    Except.ok ⟨⟨secret_name, ns, none, none, none⟩, fs, []⟩
  | KubeFetch.notFound =>
    Except.ok ⟨⟨secret_name, ns, none, none, none⟩, fs, [msgNotFound secret_name]⟩
  | KubeFetch.apiError e =>
    Except.ok ⟨⟨secret_name, ns, none, none, none⟩, fs, [msgCouldNotRead ns secret_name e]⟩
  | KubeFetch.secret d =>
    if d.isEmpty then
      Except.ok ⟨⟨secret_name, ns, none, none, some d⟩, fs, []⟩
    else
      match decodeField (dget d "tls.crt"), decodeField (dget d "tls.key") with
      | Except.error e, _ => Except.error e
      | Except.ok _, Except.error e => Except.error e
      | Except.ok cert, Except.ok key =>
        match writeCertKey cert key (kubeSecretDir secret_root ns secret_name) fs with
        | Except.error e => Except.error e
        | Except.ok (cp, kp, fs') =>
          Except.ok ⟨⟨secret_name, ns, cp, kp, some d⟩, fs', []⟩

/-! ### SplitConfigChecker.secret_reader -/

/-- A parsed YAML document, as far as the reader inspects it. -/
structure KObj where
  kind : Option String
  metadata : Option DataMap
  data : Option DataMap
deriving DecidableEq

/-- Outcome of reading and parsing the snapshot file, both external
collaborators: IOError on open/read, a YAML parse error, or the parsed
document list (an empty file behaves as `docs []`). -/
inductive SnapRead where
  | ioError
  | parseError (emsg : String)
  | docs (objs : List KObj)
deriving DecidableEq

def msgCouldNotOpen (ctxName yamlPath : String) : String :=
  "TLSContext " ++ ctxName ++ ": SCC.secret_reader could not open " ++ yamlPath

def msgCouldNotParse (ctxName yamlPath emsg : String) : String :=
  "TLSContext " ++ ctxName ++ ": SCC.secret_reader could not parse " ++ yamlPath ++ ": " ++ emsg

def msgWrongKind (ctxName kindStr yamlPath : String) (oc : Nat) : String :=
  "TLSContext " ++ ctxName ++ ": SCC.secret_reader found K8s " ++ kindStr ++
    " at " ++ yamlPath ++ "." ++ toString oc ++ "?"

def msgNoMetadata (ctxName yamlPath : String) (oc : Nat) : String :=
  "TLSContext " ++ ctxName ++ ": SCC.secret_reader found K8s Secret with no metadata at " ++
    yamlPath ++ "." ++ toString oc ++ "?"

def msgMultipleSecrets (ctxName yamlPath : String) : String :=
  "TLSContext " ++ ctxName ++ ": SCC.secret_reader found multiple Secrets in " ++ yamlPath ++ "?"

/-- State of the document scan loop. -/
structure ScanState where
  ocount : Nat
  errors : Nat
  cert_data : Option DataMap
  log : List String
deriving DecidableEq

/-- One iteration of the document loop in `secret_reader` (`ocount` is bumped
first, then the kind, metadata and duplicate-data checks run in order). -/
def scanStep (ctxName yamlPath : String) (s0 : ScanState) (obj : KObj) : ScanState :=
  if obj.kind ≠ some "Secret" then
    { s0 with ocount := s0.ocount + 1, errors := s0.errors + 1,
              log := s0.log ++ [msgWrongKind ctxName (optStr obj.kind) yamlPath (s0.ocount + 1)] }
  else if pyDictOptTruthy obj.metadata = false then
    { s0 with ocount := s0.ocount + 1, errors := s0.errors + 1,
              log := s0.log ++ [msgNoMetadata ctxName yamlPath (s0.ocount + 1)] }
  else
    match obj.data with
    | some dmap =>
      if pyDictOptTruthy s0.cert_data then
        { s0 with ocount := s0.ocount + 1, errors := s0.errors + 1,
                  log := s0.log ++ [msgMultipleSecrets ctxName yamlPath] }
      else { s0 with ocount := s0.ocount + 1, cert_data := some dmap }
    | none => { s0 with ocount := s0.ocount + 1 }

/-- The whole document loop. -/
def scanDocs (ctxName yamlPath : String) (objs : List KObj) (s : ScanState) : ScanState :=
  objs.foldl (scanStep ctxName yamlPath) s

/-- `<root>/<namespace>/secrets/<secret_name>.yaml`. -/
def sccYamlPath (root ns secret_name : String) : String :=
  pjoin (pjoin (pjoin root ns) "secrets") (secret_name ++ ".yaml")

/-- `<root>/<namespace>/secrets-decoded/<secret_name>`. -/
def sccSecretDir (root ns secret_name : String) : String :=
  pjoin (pjoin (pjoin root ns) "secrets-decoded") secret_name

/-- `SplitConfigChecker.secret_reader`.  `root` is `self.root`; the
`secret_root` argument of the Python method is unused by it and omitted.
The file-read/parse outcome is an input (`SnapRead`). -/
def sccSecretReader (ctxName : String) (snap : SnapRead)
    (secret_name ns root : String) (fs : FS) : Except PyErr ReadOut :=
  let yamlPath := sccYamlPath root ns secret_name
  let objs : List KObj :=
    match snap with
    | SnapRead.ioError => []
    | SnapRead.parseError _ => []
    | SnapRead.docs l => l
  let log0 : List String :=
    match snap with
    | SnapRead.ioError => [msgCouldNotOpen ctxName yamlPath]
    | SnapRead.parseError e => [msgCouldNotParse ctxName yamlPath e]
    | SnapRead.docs _ => []
  let st := scanDocs ctxName yamlPath objs ⟨0, 0, none, log0⟩
  -- `if not errors and cert_data:`
  if st.errors = 0 ∧ pyDictOptTruthy st.cert_data then
    match st.cert_data with
    | some d =>
      match decodeField (dget d "tls.crt"), decodeField (dget d "tls.key") with
      | Except.error e, _ => Except.error e
      | Except.ok _, Except.error e => Except.error e
      | Except.ok cert, Except.ok key =>
        match writeCertKey cert key (sccSecretDir root ns secret_name) fs with
        | Except.error e => Except.error e
        | Except.ok (cp, kp, fs') =>
          Except.ok ⟨⟨secret_name, ns, cp, kp, some d⟩, fs', st.log⟩
    | none => Except.ok ⟨⟨secret_name, ns, none, none, none⟩, fs, st.log⟩
  else
    Except.ok ⟨⟨secret_name, ns, none, none, st.cert_data⟩, fs, st.log⟩

/-! ### RichStatus -/

/-- Modelled from the spec: the running software version comes from the
`VERSION` module, which is not under `src/`; no claim depends on its value, only its injection matters. -/
def Version : String := "0.0.0"

/-- `SystemInfo`: host identity and resolved address.  The socket lookups are
environment-dependent external calls; the values here are the source's
fallback defaults, and no claim depends on the actual strings. -/
structure SysInfo where
  MyHostName : String
  MyResolvedName : String

def systemInfo : SysInfo := ⟨"localhost", "127.0.0.1"⟩

structure RichStatus where
  ok : Bool
  info : DataMap
deriving DecidableEq

/-- `RichStatus.__init__`: keyword attributes, then the three injected
attributes (overwriting collisions). -/
def RichStatus.make (ok : Bool) (kwargs : DataMap) : RichStatus :=
  { ok := ok,
    info := dset (dset (dset kwargs "hostname" systemInfo.MyHostName)
                       "resolvedname" systemInfo.MyResolvedName)
                 "version" Version }

/-- `RichStatus.__getattr__`: `self.info.get(key)`. -/
def RichStatus.getattr (r : RichStatus) (k : String) : Option String := dget r.info k

/-- `RichStatus.__bool__`. -/
def RichStatus.toBool (r : RichStatus) : Bool := r.ok

/-- `RichStatus.__contains__`. -/
def RichStatus.containsKey (r : RichStatus) (k : String) : Bool := (dget r.info k).isSome

def rsKeys (r : RichStatus) : List String := r.info.map Prod.fst

/-- `sorted(self.info.keys())`. -/
def rsSortedKeys (r : RichStatus) : List String :=
  (rsKeys r).insertionSort (· ≤ ·)

/-- The `astr` computation of `RichStatus.__str__`: `" ".join(attrs)` over
`"%s=%s" % (key, self.info[key])` for the sorted keys, with a leading space
when nonempty. -/
def rsAttrStr (r : RichStatus) : String :=
  let attrs := (rsSortedKeys r).map (fun k => k ++ "=" ++ optStr (dget r.info k))
  let astr := String.intercalate " " attrs
  if astr ≠ "" then " " ++ astr else astr

/-- `RichStatus.__str__`. -/
def RichStatus.render (r : RichStatus) : String :=
  "<RichStatus " ++ (if r.toBool then "OK" else "BAD") ++ rsAttrStr r ++ ">"

/-- `RichStatus.fromError`. -/
def RichStatus.fromError (error : String) (kwargs : DataMap) : RichStatus :=
  RichStatus.make false (dset kwargs "error" error)

/-- `RichStatus.OK`. -/
def RichStatus.OK (kwargs : DataMap) : RichStatus :=
  RichStatus.make true kwargs

/-! ### Helper lemmas -/

theorem isEmpty_eq_false_of_ne_nil {α : Type} {l : List α} (h : l ≠ []) :
    l.isEmpty = false := by
  cases l with
  | nil => exact absurd rfl h
  | cons a t => rfl

theorem dget_eq_none_of_not_mem {d : DataMap} {k : String}
    (h : k ∉ d.map Prod.fst) : dget d k = none := by
  induction d with
  | nil => rfl
  | cons p rest ih =>
    obtain ⟨k2, v⟩ := p
    simp only [List.map_cons, List.mem_cons] at h
    push_neg at h
    have hne : ¬ (k2 = k) := fun he => h.1 he.symm
    simp only [dget, if_neg hne]
    exact ih h.2

theorem dget_isSome_iff_mem (d : DataMap) (k : String) :
    (dget d k).isSome = true ↔ k ∈ d.map Prod.fst := by
  induction d with
  | nil => simp [dget]
  | cons p rest ih =>
    obtain ⟨k2, v⟩ := p
    by_cases he : k2 = k
    · subst he
      simp [dget]
    · simp only [dget, if_neg he, List.map_cons, List.mem_cons, ih]
      constructor
      · exact fun h => Or.inr h
      · rintro (h | h)
        · exact absurd h.symm he
        · exact h

theorem dget_dset_self (d : DataMap) (k v : String) :
    dget (dset d k v) k = some v := by
  induction d with
  | nil => simp [dget, dset]
  | cons p rest ih =>
    obtain ⟨k2, v2⟩ := p
    by_cases he : k2 = k
    · simp [dset, dget, he]
    · simp only [dset, if_neg he, dget, if_neg he]
      exact ih

theorem dget_dset_of_ne (d : DataMap) {k k' : String} (v : String) (h : k' ≠ k) :
    dget (dset d k v) k' = dget d k' := by
  have hne : ¬ (k = k') := fun he => h he.symm
  induction d with
  | nil => simp [dget, dset, hne]
  | cons p rest ih =>
    obtain ⟨k2, v2⟩ := p
    by_cases he : k2 = k
    · subst he
      simp [dset, dget, hne]
    · simp only [dset, if_neg he, dget]
      by_cases he2 : k2 = k'
      · simp [he2]
      · simp only [if_neg he2]
        exact ih

theorem strAppend_assoc (a b c : String) : a ++ b ++ c = a ++ (b ++ c) := by
  apply String.ext
  simp [String.data_append]

/-! ### Claim C2 -/

/-- Claim C2: a `SavedSecret` is truthy iff its certificate path is set to a
nonempty string and its raw payload mapping is non-null; the key path plays
no role in truthiness. -/
theorem savedSecret_truthiness (s : SavedSecret) :
    (s.toBool = true ↔ ((∃ p, s.cert_path = some p ∧ p ≠ "") ∧ s.cert_data ≠ none))
    ∧ (∀ kp, SavedSecret.toBool { s with key_path := kp } = s.toBool) := by
  constructor
  · cases s with
    | mk n ns cp kp cd =>
      cases cp <;> cases cd <;>
        simp [SavedSecret.toBool, pyStrOptTruthy]
  · intro kp
    rfl

/-! ### Claim C5 -/

/-- Claim C5: a missing/unreadable snapshot file (IOError) and an unparsable
document stream (YAMLError) are both logged and degrade to a returned falsy
`SavedSecret` with no certificate path and null raw payload; no exception
escapes (the result is `Except.ok`). -/
theorem scc_missing_or_unparsable_falsy
    (ctxName secret_name ns root emsg : String) (fs : FS) :
    (sccSecretReader ctxName SnapRead.ioError secret_name ns root fs
      = Except.ok ⟨⟨secret_name, ns, none, none, none⟩, fs,
          [msgCouldNotOpen ctxName (sccYamlPath root ns secret_name)]⟩)
    ∧ (sccSecretReader ctxName (SnapRead.parseError emsg) secret_name ns root fs
      = Except.ok ⟨⟨secret_name, ns, none, none, none⟩, fs,
          [msgCouldNotParse ctxName (sccYamlPath root ns secret_name) emsg]⟩)
    ∧ SavedSecret.toBool ⟨secret_name, ns, none, none, none⟩ = false :=
  ⟨rfl, rfl, rfl⟩

/-! ### Claim C9 -/

theorem make_injects (ok : Bool) (kwargs : DataMap) :
    dget (RichStatus.make ok kwargs).info "hostname" = some systemInfo.MyHostName
    ∧ dget (RichStatus.make ok kwargs).info "resolvedname" = some systemInfo.MyResolvedName
    ∧ dget (RichStatus.make ok kwargs).info "version" = some Version := by
  unfold RichStatus.make
  refine ⟨?_, ?_, ?_⟩
  · rw [dget_dset_of_ne _ _ (by decide), dget_dset_of_ne _ _ (by decide), dget_dset_self]
  · rw [dget_dset_of_ne _ _ (by decide), dget_dset_self]
  · rw [dget_dset_self]

/-- Claim C9: every `RichStatus` — built by the constructor, `OK`, or
`fromError`, with any keyword attributes including colliding ones — carries
`hostname`, `resolvedname` and `version` set to the system-derived values. -/
theorem richStatus_injected_attrs (ok : Bool) (kwargs : DataMap) (err : String) :
    (dget (RichStatus.make ok kwargs).info "hostname" = some systemInfo.MyHostName
      ∧ dget (RichStatus.make ok kwargs).info "resolvedname" = some systemInfo.MyResolvedName
      ∧ dget (RichStatus.make ok kwargs).info "version" = some Version)
    ∧ (dget (RichStatus.OK kwargs).info "hostname" = some systemInfo.MyHostName
      ∧ dget (RichStatus.OK kwargs).info "resolvedname" = some systemInfo.MyResolvedName
      ∧ dget (RichStatus.OK kwargs).info "version" = some Version)
    ∧ (dget (RichStatus.fromError err kwargs).info "hostname" = some systemInfo.MyHostName
      ∧ dget (RichStatus.fromError err kwargs).info "resolvedname" = some systemInfo.MyResolvedName
      ∧ dget (RichStatus.fromError err kwargs).info "version" = some Version) :=
  ⟨make_injects ok kwargs, make_injects true kwargs, make_injects false (dset kwargs "error" err)⟩

/-! ### Claim C8 -/

/-- Claim C8: `RichStatus` boolean coercion equals the success flag; lookup of
an absent key yields none (never an error); the containment check holds
exactly for keys of the attribute mapping; and the rendering lists the
attributes in ascending sorted-key order (the rendered key list is sorted and
a permutation of the attribute keys), with an `OK`/`BAD` marker chosen by the
success flag. -/
theorem richStatus_result_invariants (r : RichStatus) :
    (r.toBool = r.ok)
    ∧ (∀ k, k ∉ rsKeys r → r.getattr k = none)
    ∧ (∀ k, r.containsKey k = true ↔ k ∈ rsKeys r)
    ∧ List.Sorted (· ≤ ·) (rsSortedKeys r)
    ∧ (rsSortedKeys r).Perm (rsKeys r)
    ∧ (r.ok = true → ∃ t, r.render = "<RichStatus OK" ++ t)
    ∧ (r.ok = false → ∃ t, r.render = "<RichStatus BAD" ++ t)
    ∧ r.render = "<RichStatus " ++ (if r.ok then "OK" else "BAD") ++ rsAttrStr r ++ ">" := by
  refine ⟨rfl, ?_, ?_, ?_, ?_, ?_, ?_, rfl⟩
  · intro k hk
    exact dget_eq_none_of_not_mem hk
  · intro k
    exact dget_isSome_iff_mem r.info k
  · exact List.sorted_insertionSort _ _
  · exact List.perm_insertionSort _ _
  · intro h
    refine ⟨rsAttrStr r ++ ">", ?_⟩
    unfold RichStatus.render RichStatus.toBool
    rw [h]
    rw [strAppend_assoc ("<RichStatus " ++ (if true then "OK" else "BAD")) (rsAttrStr r) ">"]
    rfl
  · intro h
    refine ⟨rsAttrStr r ++ ">", ?_⟩
    unfold RichStatus.render RichStatus.toBool
    rw [h]
    rw [strAppend_assoc ("<RichStatus " ++ (if false then "OK" else "BAD")) (rsAttrStr r) ">"]
    rfl

/-- Concrete instantiation of `richStatus_result_invariants`, discharging its
hypotheses: a missing key yields none, and a successful value renders with the
`OK` marker. -/
theorem richStatus_result_invariants_witness :
    (RichStatus.make true []).getattr "missing" = none
    ∧ (∃ t, (RichStatus.make true []).render = "<RichStatus OK" ++ t) :=
  ⟨(richStatus_result_invariants (RichStatus.make true [])).2.1 "missing" (by decide),
   (richStatus_result_invariants (RichStatus.make true [])).2.2.2.2.2.1 rfl⟩

/-! ### Claim C1 -/

theorem dget_ne_nil {d : DataMap} {k : String} {v : String}
    (h : dget d k = some v) : d ≠ [] := by
  intro he
  subst he
  simp [dget] at h

theorem decodeField_bad {s : String} (hs : s ≠ "") (hbad : a2b_base64 s = none) :
    decodeField (some s) = Except.error PyErr.binasciiError := by
  simp only [decodeField, if_neg hs, hbad]

/-- The scan of a single well-formed Secret document captures its data map
with no errors. -/
theorem scan_single_secret (ctxName yamlPath : String) (meta d : DataMap)
    (log0 : List String) (hm : meta ≠ []) :
    scanDocs ctxName yamlPath [⟨some "Secret", some meta, some d⟩] ⟨0, 0, none, log0⟩
      = ⟨1, 0, some d, log0⟩ := by
  have hme : pyDictOptTruthy (some meta) = true := by
    simp [pyDictOptTruthy, isEmpty_eq_false_of_ne_nil hm]
  show scanStep ctxName yamlPath ⟨0, 0, none, log0⟩ ⟨some "Secret", some meta, some d⟩
        = ⟨1, 0, some d, log0⟩
  simp [scanStep, hme, isEmpty_eq_false_of_ne_nil hm, pyDictOptTruthy]

/-- Claim C1, counterexample to the claim as stated: with `tls.crt` holding
malformed base64 (`"A"`) next to a valid `tls.key`, both resolution
operations raise the decode error instead of returning a `SavedSecret`. -/
theorem resolution_never_raises_counterexample :
    kubeSecretReader (KubeFetch.secret [("tls.crt", "A"), ("tls.key", "S0VZ")])
        "mysecret" "ns" "/root" [] = Except.error PyErr.binasciiError
    ∧ sccSecretReader "ctx"
        (SnapRead.docs [⟨some "Secret", some [("name", "x")], some [("tls.crt", "A"), ("tls.key", "S0VZ")]⟩])
        "mysecret" "ns" "/root" [] = Except.error PyErr.binasciiError :=
  ⟨rfl, rfl⟩

/-- Claim C1 (amended): when the fetched payload's `tls.crt` field is present,
nonempty and malformed base64, both `KubeSecretReader.__call__` and
`SplitConfigChecker.secret_reader` propagate the `binascii.Error` raised by
the decode instead of returning a `SavedSecret`. -/
theorem malformed_cert_raises
    (d : DataMap) (cs ctxName secret_name ns root : String) (fs : FS)
    (hc : dget d "tls.crt" = some cs) (hcs : cs ≠ "") (hbad : a2b_base64 cs = none) :
    kubeSecretReader (KubeFetch.secret d) secret_name ns root fs
      = Except.error PyErr.binasciiError
    ∧ sccSecretReader ctxName (SnapRead.docs [⟨some "Secret", some [("name", "x")], some d⟩])
        secret_name ns root fs = Except.error PyErr.binasciiError := by
  have hdne : d ≠ [] := dget_ne_nil hc
  have hE : d.isEmpty = false := isEmpty_eq_false_of_ne_nil hdne
  have h1 : decodeField (dget d "tls.crt") = Except.error PyErr.binasciiError := by
    rw [hc]
    exact decodeField_bad hcs hbad
  constructor
  · simp only [kubeSecretReader, hE, Bool.false_eq_true, if_false, h1]
  · simp only [sccSecretReader,
      scan_single_secret ctxName (sccYamlPath root ns secret_name) [("name", "x")] d [] (by decide)]
    have htr : pyDictOptTruthy (some d) = true := by
      simp [pyDictOptTruthy, hE]
    simp [htr, h1]

/-- Concrete instantiation of `malformed_cert_raises`, discharging its
hypotheses at `tls.crt = "A"`. -/
theorem malformed_cert_raises_witness :
    kubeSecretReader (KubeFetch.secret [("tls.crt", "A")]) "s" "ns" "/root" []
      = Except.error PyErr.binasciiError
    ∧ sccSecretReader "ctx" (SnapRead.docs [⟨some "Secret", some [("name", "x")], some [("tls.crt", "A")]⟩])
        "s" "ns" "/root" [] = Except.error PyErr.binasciiError :=
  malformed_cert_raises [("tls.crt", "A")] "A" "ctx" "s" "ns" "/root" []
    rfl (by decide) (by decide)

/-! ### Claim C3 -/

/-- Case analysis of the write block: if no certificate file was written the
filesystem is untouched and no key path is set; a key path implies a
certificate path. -/
theorem writeCertKey_cases (cert key : Option Bytes) (dir : String) (fs : FS)
    (cp kp : Option String) (fs' : FS)
    (h : writeCertKey cert key dir fs = Except.ok (cp, kp, fs')) :
    (cp = none → kp = none ∧ fs' = fs) ∧ (kp ≠ none → cp ≠ none) := by
  unfold writeCertKey at h
  split at h
  · simp only [Except.ok.injEq, Prod.mk.injEq] at h
    obtain ⟨h1, h2, h3⟩ := h
    subst h1; subst h2; subst h3
    exact ⟨fun _ => ⟨rfl, rfl⟩, fun hk => absurd rfl hk⟩
  · split at h
    · simp only [Except.ok.injEq, Prod.mk.injEq] at h
      obtain ⟨h1, h2, h3⟩ := h
      subst h1; subst h2; subst h3
      exact ⟨fun _ => ⟨rfl, rfl⟩, fun hk => absurd rfl hk⟩
    · split at h
      · split at h
        · simp only [Except.ok.injEq, Prod.mk.injEq] at h
          obtain ⟨h1, h2, h3⟩ := h
          subst h1; subst h2; subst h3
          exact ⟨fun hc => absurd hc (by simp), fun _ => by simp⟩
        · split at h
          · simp only [Except.ok.injEq, Prod.mk.injEq] at h
            obtain ⟨h1, h2, h3⟩ := h
            subst h1; subst h2; subst h3
            exact ⟨fun hc => absurd hc (by simp), fun _ => by simp⟩
          · split at h
            · simp only [Except.ok.injEq, Prod.mk.injEq] at h
              obtain ⟨h1, h2, h3⟩ := h
              subst h1; subst h2; subst h3
              exact ⟨fun hc => absurd hc (by simp), fun _ => by simp⟩
            · exact absurd h (by simp)
      · exact absurd h (by simp)

/-- Claim C3: for every resolution of either reader that returns, if no
certificate was persisted (certificate path absent) then no key was persisted
and the filesystem is unchanged; and a key path is only ever set when a
certificate path is set. -/
theorem no_cert_no_files
    (fetch : KubeFetch) (ctxName secret_name ns root n2 ns2 root2 : String)
    (snap : SnapRead) (fs fs2 : FS) :
    (∀ out, kubeSecretReader fetch secret_name ns root fs = Except.ok out →
      (out.secret.cert_path = none → out.secret.key_path = none ∧ out.fs = fs)
      ∧ (out.secret.key_path ≠ none → out.secret.cert_path ≠ none))
    ∧ (∀ out, sccSecretReader ctxName snap n2 ns2 root2 fs2 = Except.ok out →
      (out.secret.cert_path = none → out.secret.key_path = none ∧ out.fs = fs2)
      ∧ (out.secret.key_path ≠ none → out.secret.cert_path ≠ none)) := by
  constructor
  · intro out h
    cases fetch with
    | noHandle =>
      cases h
      exact ⟨fun _ => ⟨rfl, rfl⟩, fun hk => absurd rfl hk⟩
    | notFound =>
      cases h
      exact ⟨fun _ => ⟨rfl, rfl⟩, fun hk => absurd rfl hk⟩
    | apiError e =>
      cases h
      exact ⟨fun _ => ⟨rfl, rfl⟩, fun hk => absurd rfl hk⟩
    | secret d =>
      simp only [kubeSecretReader] at h
      split at h
      · cases h
        exact ⟨fun _ => ⟨rfl, rfl⟩, fun hk => absurd rfl hk⟩
      · split at h
        · exact absurd h (by simp)
        · exact absurd h (by simp)
        · rename_i cert key hcert hkey
          split at h
          · exact absurd h (by simp)
          · rename_i cp kp fs' hw
            cases h
            exact writeCertKey_cases cert key _ fs cp kp fs' hw
  · intro out h
    simp only [sccSecretReader] at h
    split at h
    · split at h
      · split at h
        · exact absurd h (by simp)
        · exact absurd h (by simp)
        · rename_i cert key hcert hkey
          split at h
          · exact absurd h (by simp)
          · rename_i cp kp fs' hw
            cases h
            exact writeCertKey_cases cert key _ fs2 cp kp fs' hw
      · cases h
        exact ⟨fun _ => ⟨rfl, rfl⟩, fun hk => absurd rfl hk⟩
    · cases h
      exact ⟨fun _ => ⟨rfl, rfl⟩, fun hk => absurd rfl hk⟩

/-- Concrete instantiation of `no_cert_no_files`: a not-found live secret and
a missing snapshot file both yield no key file and an untouched filesystem. -/
theorem no_cert_no_files_witness :
    ((⟨⟨"foo", "ns", none, none, none⟩, [], [msgNotFound "foo"]⟩ : ReadOut).secret.key_path = none
      ∧ (⟨⟨"foo", "ns", none, none, none⟩, [], [msgNotFound "foo"]⟩ : ReadOut).fs = ([] : FS))
    ∧ ((⟨⟨"s", "ns", none, none, none⟩, [],
          [msgCouldNotOpen "ctx" (sccYamlPath "/r" "ns" "s")]⟩ : ReadOut).secret.key_path = none
      ∧ (⟨⟨"s", "ns", none, none, none⟩, [],
          [msgCouldNotOpen "ctx" (sccYamlPath "/r" "ns" "s")]⟩ : ReadOut).fs = ([] : FS)) :=
  ⟨((no_cert_no_files KubeFetch.notFound "ctx" "foo" "ns" "/r" "s" "ns" "/r"
      SnapRead.ioError [] []).1 _ rfl).1 rfl,
   ((no_cert_no_files KubeFetch.notFound "ctx" "foo" "ns" "/r" "s" "ns" "/r"
      SnapRead.ioError [] []).2 _ rfl).1 rfl⟩

/-! ### Claim C6 -/

theorem pjoin_tls_key_ne_crt (dir : String) :
    pjoin dir "tls.key" ≠ pjoin dir "tls.crt" := by
  intro h
  simp only [pjoin] at h
  have h2 := congrArg String.data h
  rw [String.data_append, String.data_append] at h2
  have h3 := List.append_cancel_left h2
  exact absurd h3 (by decide)

theorem decodeField_good {s : String} {b : Bytes} (hs : s ≠ "")
    (hgood : a2b_base64 s = some b) : decodeField (some s) = Except.ok (some b) := by
  simp only [decodeField, if_neg hs, hgood]

/-- The write block with truthy, UTF-8-valid cert and key bytes writes both
files and reports both paths. -/
theorem writeCertKey_both {cb kb : Bytes} (dir : String) (fs : FS)
    (hcb0 : cb ≠ []) (hkb0 : kb ≠ []) (hcu : utf8Valid cb = true)
    (hku : utf8Valid kb = true) :
    writeCertKey (some cb) (some kb) dir fs
      = Except.ok (some (pjoin dir "tls.crt"), some (pjoin dir "tls.key"),
          fsWrite (fsWrite fs (pjoin dir "tls.crt") cb) (pjoin dir "tls.key") kb) := by
  simp [writeCertKey, isEmpty_eq_false_of_ne_nil hcb0, isEmpty_eq_false_of_ne_nil hkb0,
    hcu, hku]

theorem fsRead_after_both (dir : String) (fs : FS) (cb kb : Bytes) :
    fsRead (fsWrite (fsWrite fs (pjoin dir "tls.crt") cb) (pjoin dir "tls.key") kb)
        (pjoin dir "tls.crt") = some cb
    ∧ fsRead (fsWrite (fsWrite fs (pjoin dir "tls.crt") cb) (pjoin dir "tls.key") kb)
        (pjoin dir "tls.key") = some kb := by
  constructor
  · simp [fsWrite, fsRead, pjoin_tls_key_ne_crt dir]
  · simp [fsWrite, fsRead]

/-- Claim C6, counterexample to the claim as stated: the empty string is
valid base64 (decoding to no bytes), yet resolving a payload whose `tls.crt`
is `""` next to a valid `tls.key` writes nothing, so reading back the
`tls.crt` file does not yield the decoded input bytes. -/
theorem roundtrip_counterexample :
    a2b_base64 "" = some []
    ∧ sccSecretReader "ctx"
        (SnapRead.docs [⟨some "Secret", some [("name", "x")],
          some [("tls.crt", ""), ("tls.key", "S0VZ")]⟩])
        "s" "ns" "/r" []
      = Except.ok ⟨⟨"s", "ns", none, none, some [("tls.crt", ""), ("tls.key", "S0VZ")]⟩, [], []⟩
    ∧ fsRead [] (pjoin (sccSecretDir "/r" "ns" "s") "tls.crt") = none :=
  ⟨rfl, rfl, rfl⟩

/-- Claim C6 (amended): for every payload whose `tls.crt` and `tls.key`
fields are valid base64 decoding to nonempty UTF-8-valid byte sequences,
resolving with either reader and then reading back the written `tls.crt` and
`tls.key` files yields exactly the base64-decoded input bytes. -/
theorem roundtrip_readback
    (d : DataMap) (cs ks ctxName secret_name ns root : String) (cb kb : Bytes) (fs : FS)
    (hc : dget d "tls.crt" = some cs) (hk : dget d "tls.key" = some ks)
    (hcs : cs ≠ "") (hks : ks ≠ "")
    (hcb : a2b_base64 cs = some cb) (hkb : a2b_base64 ks = some kb)
    (hcb0 : cb ≠ []) (hkb0 : kb ≠ [])
    (hcu : utf8Valid cb = true) (hku : utf8Valid kb = true) :
    (∃ out, kubeSecretReader (KubeFetch.secret d) secret_name ns root fs = Except.ok out
      ∧ fsRead out.fs (pjoin (kubeSecretDir root ns secret_name) "tls.crt") = some cb
      ∧ fsRead out.fs (pjoin (kubeSecretDir root ns secret_name) "tls.key") = some kb)
    ∧ (∃ out, sccSecretReader ctxName
          (SnapRead.docs [⟨some "Secret", some [("name", "x")], some d⟩])
          secret_name ns root fs = Except.ok out
      ∧ fsRead out.fs (pjoin (sccSecretDir root ns secret_name) "tls.crt") = some cb
      ∧ fsRead out.fs (pjoin (sccSecretDir root ns secret_name) "tls.key") = some kb) := by
  have hdne : d ≠ [] := dget_ne_nil hc
  have hE : d.isEmpty = false := isEmpty_eq_false_of_ne_nil hdne
  have h1 : decodeField (dget d "tls.crt") = Except.ok (some cb) := by
    rw [hc]
    exact decodeField_good hcs hcb
  have h2 : decodeField (dget d "tls.key") = Except.ok (some kb) := by
    rw [hk]
    exact decodeField_good hks hkb
  constructor
  · refine ⟨⟨⟨secret_name, ns, some (pjoin (kubeSecretDir root ns secret_name) "tls.crt"),
        some (pjoin (kubeSecretDir root ns secret_name) "tls.key"), some d⟩,
        fsWrite (fsWrite fs (pjoin (kubeSecretDir root ns secret_name) "tls.crt") cb)
          (pjoin (kubeSecretDir root ns secret_name) "tls.key") kb, []⟩, ?_, ?_, ?_⟩
    · simp only [kubeSecretReader, hE, Bool.false_eq_true, if_false, h1, h2,
        writeCertKey_both _ fs hcb0 hkb0 hcu hku]
    · exact (fsRead_after_both _ fs cb kb).1
    · exact (fsRead_after_both _ fs cb kb).2
  · refine ⟨⟨⟨secret_name, ns, some (pjoin (sccSecretDir root ns secret_name) "tls.crt"),
        some (pjoin (sccSecretDir root ns secret_name) "tls.key"), some d⟩,
        fsWrite (fsWrite fs (pjoin (sccSecretDir root ns secret_name) "tls.crt") cb)
          (pjoin (sccSecretDir root ns secret_name) "tls.key") kb, []⟩, ?_, ?_, ?_⟩
    · have htr : pyDictOptTruthy (some d) = true := by
        simp [pyDictOptTruthy, hE]
      simp only [sccSecretReader,
        scan_single_secret ctxName (sccYamlPath root ns secret_name) [("name", "x")] d []
          (by decide)]
      simp [htr, h1, h2, writeCertKey_both _ fs hcb0 hkb0 hcu hku]
    · exact (fsRead_after_both _ fs cb kb).1
    · exact (fsRead_after_both _ fs cb kb).2

/-- Concrete instantiation of `roundtrip_readback`, discharging its
hypotheses: base64 `"Q0VSVA=="`/`"S0VZ"` decode to the bytes of `CERT` and
`KEY`, which read back exactly. -/
theorem roundtrip_readback_witness :
    (∃ out, kubeSecretReader
        (KubeFetch.secret [("tls.crt", "Q0VSVA=="), ("tls.key", "S0VZ")]) "s" "ns" "/r" []
        = Except.ok out
      ∧ fsRead out.fs (pjoin (kubeSecretDir "/r" "ns" "s") "tls.crt") = some [67, 69, 82, 84]
      ∧ fsRead out.fs (pjoin (kubeSecretDir "/r" "ns" "s") "tls.key") = some [75, 69, 89])
    ∧ (∃ out, sccSecretReader "ctx"
        (SnapRead.docs [⟨some "Secret", some [("name", "x")],
          some [("tls.crt", "Q0VSVA=="), ("tls.key", "S0VZ")]⟩]) "s" "ns" "/r" []
        = Except.ok out
      ∧ fsRead out.fs (pjoin (sccSecretDir "/r" "ns" "s") "tls.crt") = some [67, 69, 82, 84]
      ∧ fsRead out.fs (pjoin (sccSecretDir "/r" "ns" "s") "tls.key") = some [75, 69, 89]) :=
  roundtrip_readback [("tls.crt", "Q0VSVA=="), ("tls.key", "S0VZ")] "Q0VSVA==" "S0VZ"
    "ctx" "s" "ns" "/r" [67, 69, 82, 84] [75, 69, 89] []
    (by decide) (by decide) (by decide) (by decide) (by decide) (by decide)
    (by decide) (by decide) (by decide) (by decide)

/-! ### Claim C4 -/

theorem scanDocs_cons (c y : String) (o : KObj) (t : List KObj) (s : ScanState) :
    scanDocs c y (o :: t) s = scanDocs c y t (scanStep c y s o) := rfl

theorem scanDocs_append (c y : String) (l1 l2 : List KObj) (s : ScanState) :
    scanDocs c y (l1 ++ l2) s = scanDocs c y l2 (scanDocs c y l1 s) := by
  unfold scanDocs
  exact List.foldl_append _ _ _ _

theorem scanStep_errors_mono (c y : String) (s : ScanState) (o : KObj) :
    s.errors ≤ (scanStep c y s o).errors := by
  unfold scanStep
  split
  · exact Nat.le_succ _
  · split
    · exact Nat.le_succ _
    · split
      · split
        · exact Nat.le_succ _
        · exact Nat.le_refl _
      · exact Nat.le_refl _

theorem scanDocs_errors_mono (c y : String) (l : List KObj) (s : ScanState) :
    s.errors ≤ (scanDocs c y l s).errors := by
  induction l generalizing s with
  | nil => exact Nat.le_refl _
  | cons o t ih =>
    rw [scanDocs_cons]
    exact le_trans (scanStep_errors_mono c y s o) (ih _)

/-- The scan invariant once a nonempty data map has been captured:
either an error has already been counted or the captured map is truthy. -/
def scanInv (s : ScanState) : Prop :=
  1 ≤ s.errors ∨ pyDictOptTruthy s.cert_data = true

theorem scanStep_keeps_truthy (c y : String) (s : ScanState) (o : KObj)
    (h : pyDictOptTruthy s.cert_data = true) :
    pyDictOptTruthy (scanStep c y s o).cert_data = true := by
  unfold scanStep
  split
  · exact h
  · split
    · exact h
    · split <;> simp_all

theorem scanStep_keeps_inv (c y : String) (s : ScanState) (o : KObj)
    (h : scanInv s) : scanInv (scanStep c y s o) := by
  cases h with
  | inl he => exact Or.inl (le_trans he (scanStep_errors_mono c y s o))
  | inr ht => exact Or.inr (scanStep_keeps_truthy c y s o ht)

theorem scanDocs_keeps_inv (c y : String) (l : List KObj) (s : ScanState)
    (h : scanInv s) : scanInv (scanDocs c y l s) := by
  induction l generalizing s with
  | nil => exact h
  | cons o t ih =>
    rw [scanDocs_cons]
    exact ih _ (scanStep_keeps_inv c y s o h)

/-- Scanning a Secret-kind document carrying a nonempty data block
establishes the invariant: it either errors or captures a truthy map. -/
theorem scanStep_secret_data_inv (c y : String) (s : ScanState)
    (meta : Option DataMap) (m : DataMap) (hm : m ≠ []) :
    scanInv (scanStep c y s ⟨some "Secret", meta, some m⟩) := by
  have htm : pyDictOptTruthy (some m) = true := by
    simp [pyDictOptTruthy, isEmpty_eq_false_of_ne_nil hm]
  cases hme : pyDictOptTruthy meta with
  | false =>
    left
    simp only [scanStep, hme]
    simp
  | true =>
    cases hcd : pyDictOptTruthy s.cert_data with
    | true =>
      left
      simp only [scanStep, hme, hcd]
      simp
    | false =>
      right
      simp only [scanStep, hme, hcd]
      simp [htm]

/-- Scanning a Secret-kind document with a data block under the invariant
counts an error (duplicate data, or missing metadata). -/
theorem scanStep_dup (c y : String) (s : ScanState) (meta : Option DataMap)
    (m2 : DataMap) (h : scanInv s) :
    1 ≤ (scanStep c y s ⟨some "Secret", meta, some m2⟩).errors := by
  cases h with
  | inl he => exact le_trans he (scanStep_errors_mono c y s _)
  | inr ht =>
    cases hme : pyDictOptTruthy meta with
    | false =>
      simp only [scanStep, hme]
      simp
    | true =>
      simp only [scanStep, hme, ht]
      simp

theorem scanStep_errors_le_log (c y : String) (s : ScanState) (o : KObj)
    (h : s.errors ≤ s.log.length) :
    (scanStep c y s o).errors ≤ (scanStep c y s o).log.length := by
  unfold scanStep
  split
  · simp only [List.length_append, List.length_singleton]
    omega
  · split
    · simp only [List.length_append, List.length_singleton]
      omega
    · split
      · split
        · simp only [List.length_append, List.length_singleton]
          omega
        · exact h
      · exact h

theorem scanDocs_errors_le_log (c y : String) (l : List KObj) (s : ScanState)
    (h : s.errors ≤ s.log.length) :
    (scanDocs c y l s).errors ≤ (scanDocs c y l s).log.length := by
  induction l generalizing s with
  | nil => exact h
  | cons o t ih =>
    rw [scanDocs_cons]
    exact ih _ (scanStep_errors_le_log c y s o h)

/-- Claim C4, counterexample to the claim as stated: two Secret-kind
documents each carrying a data block, where the first data block is empty.
The truthiness-based duplicate check does not fire, the second document's
certificate is decoded and persisted, and the certificate path is set —
not the degraded no-file, paths-absent result the claim requires. -/
theorem duplicate_secrets_counterexample :
    sccSecretReader "ctx"
      (SnapRead.docs [⟨some "Secret", some [("name", "x")], some []⟩,
        ⟨some "Secret", some [("name", "x")], some [("tls.crt", "Q0VSVA==")]⟩])
      "s" "ns" "/r" []
    = Except.ok ⟨⟨"s", "ns", some "/r/ns/secrets-decoded/s/tls.crt", none,
          some [("tls.crt", "Q0VSVA==")]⟩,
        [("/r/ns/secrets-decoded/s/tls.crt", [67, 69, 82, 84])], []⟩ := rfl

/-- Claim C4 (amended): when the snapshot document stream contains two or
more Secret-kind documents each carrying a NONEMPTY data block — wherever
they sit in the stream and whatever their metadata — resolution returns a
degraded result deterministically: an error is logged, nothing is persisted,
and both path fields of the returned `SavedSecret` are absent. -/
theorem duplicate_secrets_degraded
    (pre mid post : List KObj) (meta1 meta2 : Option DataMap) (m1 m2 : DataMap)
    (ctxName secret_name ns root : String) (fs : FS)
    (hm1 : m1 ≠ []) (_hm2 : m2 ≠ []) :
    ∃ out, sccSecretReader ctxName
        (SnapRead.docs (pre ++ ⟨some "Secret", meta1, some m1⟩ ::
          (mid ++ ⟨some "Secret", meta2, some m2⟩ :: post)))
        secret_name ns root fs = Except.ok out
      ∧ out.secret.cert_path = none ∧ out.secret.key_path = none
      ∧ out.fs = fs ∧ out.log ≠ [] := by
  have herr : 1 ≤ (scanDocs ctxName (sccYamlPath root ns secret_name)
      (pre ++ ⟨some "Secret", meta1, some m1⟩ ::
        (mid ++ ⟨some "Secret", meta2, some m2⟩ :: post))
      ⟨0, 0, none, []⟩).errors := by
    rw [scanDocs_append, scanDocs_cons, scanDocs_append, scanDocs_cons]
    refine le_trans ?_ (scanDocs_errors_mono _ _ post _)
    exact scanStep_dup _ _ _ meta2 m2
      (scanDocs_keeps_inv _ _ mid _
        (scanStep_secret_data_inv _ _ _ meta1 m1 hm1))
  have hlog : (scanDocs ctxName (sccYamlPath root ns secret_name)
      (pre ++ ⟨some "Secret", meta1, some m1⟩ ::
        (mid ++ ⟨some "Secret", meta2, some m2⟩ :: post))
      ⟨0, 0, none, []⟩).errors ≤ (scanDocs ctxName (sccYamlPath root ns secret_name)
      (pre ++ ⟨some "Secret", meta1, some m1⟩ ::
        (mid ++ ⟨some "Secret", meta2, some m2⟩ :: post))
      ⟨0, 0, none, []⟩).log.length :=
    scanDocs_errors_le_log _ _ _ _ (by simp)
  refine ⟨⟨⟨secret_name, ns, none, none,
      (scanDocs ctxName (sccYamlPath root ns secret_name)
        (pre ++ ⟨some "Secret", meta1, some m1⟩ ::
          (mid ++ ⟨some "Secret", meta2, some m2⟩ :: post))
        ⟨0, 0, none, []⟩).cert_data⟩, fs,
      (scanDocs ctxName (sccYamlPath root ns secret_name)
        (pre ++ ⟨some "Secret", meta1, some m1⟩ ::
          (mid ++ ⟨some "Secret", meta2, some m2⟩ :: post))
        ⟨0, 0, none, []⟩).log⟩, ?_, rfl, rfl, rfl, ?_⟩
  · simp only [sccSecretReader]
    rw [if_neg (fun hc => absurd hc.1 (by omega))]
  · intro hnil
    have hlen : 1 ≤ (scanDocs ctxName (sccYamlPath root ns secret_name)
        (pre ++ ⟨some "Secret", meta1, some m1⟩ ::
          (mid ++ ⟨some "Secret", meta2, some m2⟩ :: post))
        ⟨0, 0, none, []⟩).log.length := le_trans herr hlog
    have hnil2 : (scanDocs ctxName (sccYamlPath root ns secret_name)
        (pre ++ ⟨some "Secret", meta1, some m1⟩ ::
          (mid ++ ⟨some "Secret", meta2, some m2⟩ :: post))
        ⟨0, 0, none, []⟩).log = [] := hnil
    rw [hnil2] at hlen
    simp at hlen

/-- Concrete instantiation of `duplicate_secrets_degraded`, discharging its
hypotheses with two adjacent well-formed Secret documents. -/
theorem duplicate_secrets_degraded_witness :
    ∃ out, sccSecretReader "ctx"
        (SnapRead.docs ([] ++ ⟨some "Secret", some [("name", "x")], some [("tls.crt", "QQ==")]⟩ ::
          ([] ++ ⟨some "Secret", some [("name", "x")], some [("tls.crt", "QQ==")]⟩ :: [])))
        "s" "ns" "/r" [] = Except.ok out
      ∧ out.secret.cert_path = none ∧ out.secret.key_path = none
      ∧ out.fs = ([] : FS) ∧ out.log ≠ [] :=
  duplicate_secrets_degraded [] [] [] (some [("name", "x")]) (some [("name", "x")])
    [("tls.crt", "QQ==")] [("tls.crt", "QQ==")] "ctx" "s" "ns" "/r" []
    (by decide) (by decide)

/-! ### Claim C10 -/

/-- Scanning two well-formed Secret documents, the first with a truthy data
map: the second trips the duplicate check, keeping the first captured map. -/
theorem scan_two_secrets (c y : String) (meta1 meta2 m1 m2 : DataMap)
    (log0 : List String) (h1 : meta1 ≠ []) (h2 : meta2 ≠ []) (hm1 : m1 ≠ []) :
    scanDocs c y [⟨some "Secret", some meta1, some m1⟩,
        ⟨some "Secret", some meta2, some m2⟩] ⟨0, 0, none, log0⟩
      = ⟨2, 1, some m1, log0 ++ [msgMultipleSecrets c y]⟩ := by
  show scanStep c y (scanStep c y ⟨0, 0, none, log0⟩ ⟨some "Secret", some meta1, some m1⟩)
        ⟨some "Secret", some meta2, some m2⟩ = _
  simp [scanStep, pyDictOptTruthy, isEmpty_eq_false_of_ne_nil h1,
    isEmpty_eq_false_of_ne_nil h2, isEmpty_eq_false_of_ne_nil hm1]

/-- Scanning two well-formed Secret documents, the first with an EMPTY data
map: the truthiness-based duplicate check does not fire, and the second
document's map replaces the first with no error. -/
theorem scan_empty_then_data (c y : String) (meta1 meta2 m2 : DataMap)
    (h1 : meta1 ≠ []) (h2 : meta2 ≠ []) :
    scanDocs c y [⟨some "Secret", some meta1, some []⟩,
        ⟨some "Secret", some meta2, some m2⟩] ⟨0, 0, none, []⟩
      = ⟨2, 0, some m2, []⟩ := by
  show scanStep c y (scanStep c y ⟨0, 0, none, []⟩ ⟨some "Secret", some meta1, some []⟩)
        ⟨some "Secret", some meta2, some m2⟩ = _
  simp [scanStep, pyDictOptTruthy, isEmpty_eq_false_of_ne_nil h1,
    isEmpty_eq_false_of_ne_nil h2]

/-- Claim C10: on the duplicate-data error path the returned `SavedSecret`
still carries the FIRST captured data map as its raw payload (non-null) while
both path fields are absent and nothing is written — falsy yet exposing the
payload; and because the duplicate check tests dict truthiness, a first
document with an empty data map does not trigger the duplicate error for a
later data-bearing document (no error is counted and the later map wins). -/
theorem duplicate_keeps_first_payload
    (meta1 meta2 m1 m2 : DataMap) (ctxName secret_name ns root : String) (fs : FS)
    (h1 : meta1 ≠ []) (h2 : meta2 ≠ []) (hm1 : m1 ≠ []) :
    (∃ out, sccSecretReader ctxName
        (SnapRead.docs [⟨some "Secret", some meta1, some m1⟩,
          ⟨some "Secret", some meta2, some m2⟩]) secret_name ns root fs = Except.ok out
      ∧ out.secret.cert_data = some m1
      ∧ out.secret.cert_path = none ∧ out.secret.key_path = none
      ∧ out.fs = fs ∧ out.secret.toBool = false ∧ out.log ≠ [])
    ∧ (scanDocs ctxName (sccYamlPath root ns secret_name)
        [⟨some "Secret", some meta1, some []⟩,
          ⟨some "Secret", some meta2, some m2⟩] ⟨0, 0, none, []⟩).errors = 0
    ∧ (scanDocs ctxName (sccYamlPath root ns secret_name)
        [⟨some "Secret", some meta1, some []⟩,
          ⟨some "Secret", some meta2, some m2⟩] ⟨0, 0, none, []⟩).cert_data = some m2 := by
  refine ⟨?_, ?_, ?_⟩
  · refine ⟨⟨⟨secret_name, ns, none, none, some m1⟩, fs,
      [] ++ [msgMultipleSecrets ctxName (sccYamlPath root ns secret_name)]⟩,
      ?_, rfl, rfl, rfl, rfl, rfl, by simp⟩
    simp only [sccSecretReader,
      scan_two_secrets ctxName (sccYamlPath root ns secret_name) meta1 meta2 m1 m2 [] h1 h2 hm1]
    rw [if_neg (fun hc => absurd hc.1 (by omega))]
  · rw [scan_empty_then_data ctxName (sccYamlPath root ns secret_name) meta1 meta2 m2 h1 h2]
  · rw [scan_empty_then_data ctxName (sccYamlPath root ns secret_name) meta1 meta2 m2 h1 h2]

/-- Concrete instantiation of `duplicate_keeps_first_payload`, discharging its
hypotheses. -/
theorem duplicate_keeps_first_payload_witness :
    (∃ out, sccSecretReader "ctx"
        (SnapRead.docs [⟨some "Secret", some [("name", "x")], some [("tls.crt", "QQ==")]⟩,
          ⟨some "Secret", some [("name", "y")], some [("k", "v")]⟩]) "s" "ns" "/r" []
        = Except.ok out
      ∧ out.secret.cert_data = some [("tls.crt", "QQ==")]
      ∧ out.secret.cert_path = none ∧ out.secret.key_path = none
      ∧ out.fs = ([] : FS) ∧ out.secret.toBool = false ∧ out.log ≠ [])
    ∧ (scanDocs "ctx" (sccYamlPath "/r" "ns" "s")
        [⟨some "Secret", some [("name", "x")], some []⟩,
          ⟨some "Secret", some [("name", "y")], some [("k", "v")]⟩] ⟨0, 0, none, []⟩).errors = 0
    ∧ (scanDocs "ctx" (sccYamlPath "/r" "ns" "s")
        [⟨some "Secret", some [("name", "x")], some []⟩,
          ⟨some "Secret", some [("name", "y")], some [("k", "v")]⟩] ⟨0, 0, none, []⟩).cert_data
      = some [("k", "v")] :=
  duplicate_keeps_first_payload [("name", "x")] [("name", "y")] [("tls.crt", "QQ==")] [("k", "v")]
    "ctx" "s" "ns" "/r" [] (by decide) (by decide) (by decide)

end Ambassador
